import Mathlib

/-!
Shallow embedding of `src/amqplib-auto-recovery.js` (the `withAutoRecovery`
decorator) and proofs of the specified properties.

The JavaScript module is single-threaded and event-driven.  We embed it as a
collection of pure step functions, one per source handler, acting on explicit
state records that hold the closure variables of the source
(`activeConnection`, `lastError`, `connectionClosed`, `channelClosedByClient`,
`channelClosed`).  Emitted side effects (invocations of `connectCallback`,
`onError`, `process.nextTick(connect, ...)`, raw `close` calls) are returned
as explicit effect values.  The external `backoff` library is out of scope of
the repository; its attempt loop is modelled from the spec's scheduler
contract (section 4.1).
-/

namespace AmqplibAutoRecovery

/-- JavaScript error value, as far as this module inspects it: the code reads
only `err.name` (in `closeConnection`) and `err.message` (in the `onError`
messages). -/
structure Err where
  name : String
  message : String
deriving DecidableEq, Repr

/-- Error classifier: the `isErrorUnrecoverable` configuration hook
(defaulting to `() => false` in the source). We keep it as an explicit
parameter. -/
def Classifier : Type := Err → Bool

/-- State of one `connect(url, connectCallback)` invocation after a successful
attempt, holding the source's closure variables:
`activeConnection` (the raw connection object or `null`; we model only its
nullness), `lastError` (initially `undefined`), and `connectionClosed`
(initially `false`). -/
structure ConnState where
  activeConnection : Bool
  lastError : Option Err
  connectionClosed : Bool
deriving DecidableEq, Repr

/-- Closure state right after a successful attempt runs
`activeConnection = con; let lastError; let connectionClosed = false;`. -/
def initialConnState : ConnState :=
  { activeConnection := true, lastError := none, connectionClosed := false }

/-- Observable side effects of one connection-level handler invocation:
how many reconnects were scheduled via `process.nextTick(connect, url,
connectCallback)`, which messages were passed to the `onError` hook, and how
many raw `con.close` calls were issued. -/
structure ConnEffects where
  reconnects : Nat
  errorMsgs : List String
  rawCloses : Nat
deriving DecidableEq, Repr

/-- Handler installed by `con.on('error', (err) => { lastError = err;
onError(new Error(...)) })`: records the error and reports it, touching
nothing else. -/
def conErrorHandler (s : ConnState) (err : Err) : ConnState × ConnEffects :=
  ({ s with lastError := some err },
   { reconnects := 0,
     errorMsgs := ["Connection failed (" ++ err.message ++ ")"],
     rawCloses := 0 })

/-- Handler installed by `con.on('close', () => { connectionClosed = true;
if (activeConnection) { if (!lastError || !isErrorUnrecoverable(lastError)) {
process.nextTick(connect, url, connectCallback); } } })`. -/
def conCloseHandler (isErrorUnrecoverable : Classifier) (s : ConnState) :
    ConnState × ConnEffects :=
  let scheduled : Nat :=
    if s.activeConnection then
      match s.lastError with
      | none => 1
      | some e => if isErrorUnrecoverable e then 0 else 1
    else 0
  ({ s with connectionClosed := true },
   { reconnects := scheduled, errorMsgs := [], rawCloses := 0 })

/-- The decorated connection's `close(cb)`:
`activeConnection = null; con.close(cb)`.  The marker is cleared strictly
before the raw close is issued. -/
def wrapperClose (s : ConnState) : ConnState × ConnEffects :=
  ({ s with activeConnection := false },
   { reconnects := 0, errorMsgs := [], rawCloses := 1 })

/-- The decorated connection's `closeAndReconnect(cb)`: `con.close(cb)` with
the active marker left untouched. -/
def wrapperCloseAndReconnect (s : ConnState) : ConnState × ConnEffects :=
  (s, { reconnects := 0, errorMsgs := [], rawCloses := 1 })

/-- The decorated connection's `closed` getter: `return connectionClosed`. -/
def closedGetter (s : ConnState) : Bool :=
  s.connectionClosed

/-- Connection-level occurrences after a successful connect: the raw
connection's `error` and `close` events, and the client calling the decorated
`close` or `closeAndReconnect`. -/
inductive ConnEvent where
  | errorEvent (err : Err)
  | closeEvent
  | clientClose
  | clientCloseAndReconnect
deriving DecidableEq, Repr

/-- Dispatch one connection-level occurrence to its source handler. -/
def connStep (isErrorUnrecoverable : Classifier) :
    ConnEvent → ConnState → ConnState × ConnEffects
  | ConnEvent.errorEvent err, s => conErrorHandler s err
  | ConnEvent.closeEvent, s => conCloseHandler isErrorUnrecoverable s
  | ConnEvent.clientClose, s => wrapperClose s
  | ConnEvent.clientCloseAndReconnect, s => wrapperCloseAndReconnect s

/-- Run a sequence of connection-level occurrences, returning the final
state. -/
def connRun (isErrorUnrecoverable : Classifier) :
    ConnState → List ConnEvent → ConnState
  | s, [] => s
  | s, e :: es => connRun isErrorUnrecoverable
      (connStep isErrorUnrecoverable e s).1 es

/-- Total number of reconnect attempts scheduled over a sequence of
connection-level occurrences. -/
def totalReconnects (isErrorUnrecoverable : Classifier) :
    ConnState → List ConnEvent → Nat
  | _, [] => 0
  | s, e :: es =>
    (connStep isErrorUnrecoverable e s).2.reconnects +
      totalReconnects isErrorUnrecoverable (connStep isErrorUnrecoverable e s).1 es

/-- Result of the internal `closeConnection` helper:
`try { con.close(); } catch (e) { if (e.name !== 'IllegalOperationError')
throw e; }`.  The argument is what the raw `con.close()` did (`some e` if it
threw `e`, `none` if it returned normally); the result is the error that
escapes `closeConnection` (`none` if nothing is thrown). -/
def closeConnection (rawCloseOutcome : Option Err) : Option Err :=
  match rawCloseOutcome with
  | none => none
  | some e => if e.name != "IllegalOperationError" then some e else none

/-- State of one channel obtained through the decorated
`createChannel`/`createConfirmChannel`: the source's closure variables
`channelClosedByClient` (declared `let channelClosedByClient;`, i.e.
`undefined`, which is falsy — modelled `false`) and `channelClosed`
(initialized `false`). -/
structure ChanState where
  channelClosedByClient : Bool
  channelClosed : Bool
deriving DecidableEq, Repr

/-- Channel closure state right after `channelCallback` succeeds. -/
def initialChanState : ChanState :=
  { channelClosedByClient := false, channelClosed := false }

/-- Observable side effects of one channel-level handler invocation:
how many times the parent connection was force-closed via `closeConnection()`,
which errors were written to the enclosing `lastError`, which messages were
passed to `onError`, and how many raw `ch.close` calls were issued. -/
structure ChanEffects where
  forcedConnCloses : Nat
  lastErrorWrites : List Err
  errorMsgs : List String
  rawChanCloses : Nat
deriving DecidableEq, Repr

/-- Handler installed by `ch.on('error', (err) => { lastError = err;
onError(new Error(...)) })`. -/
def chErrorHandler (c : ChanState) (err : Err) : ChanState × ChanEffects :=
  (c, { forcedConnCloses := 0, lastErrorWrites := [err],
        errorMsgs := ["Channel failed (" ++ err.message ++ ")"],
        rawChanCloses := 0 })

/-- Handler installed by `ch.on('close', () => { channelClosed = true;
channelClosedByClient || closeConnection(); })`. -/
def chCloseHandler (c : ChanState) : ChanState × ChanEffects :=
  ({ c with channelClosed := true },
   { forcedConnCloses := if c.channelClosedByClient then 0 else 1,
     lastErrorWrites := [], errorMsgs := [], rawChanCloses := 0 })

/-- The channel proxy's `close(cb)` override:
`channelClosedByClient = true; target.close(cb);`.  The flag is set strictly
before the raw close is issued. -/
def chanProxyClose (c : ChanState) : ChanState × ChanEffects :=
  ({ c with channelClosedByClient := true },
   { forcedConnCloses := 0, lastErrorWrites := [], errorMsgs := [],
     rawChanCloses := 1 })

/-- The channel proxy's `closed` read: returns `channelClosed`. -/
def chanClosedGetter (c : ChanState) : Bool :=
  c.channelClosed

/-- Channel-level occurrences: the raw channel's `error` and `close` events,
and the client calling the proxy's `close`. -/
inductive ChanEvent where
  | errorEvent (err : Err)
  | closeEvent
  | clientClose
deriving DecidableEq, Repr

/-- Dispatch one channel-level occurrence to its source handler. -/
def chanStep : ChanEvent → ChanState → ChanState × ChanEffects
  | ChanEvent.errorEvent err, c => chErrorHandler c err
  | ChanEvent.closeEvent, c => chCloseHandler c
  | ChanEvent.clientClose, c => chanProxyClose c

/-- Total number of forced parent-connection closes (`closeConnection()`
invocations from the channel close handler) over a sequence of channel-level
occurrences. -/
def chanTotalForcedCloses : ChanState → List ChanEvent → Nat
  | _, [] => 0
  | c, e :: es =>
    (chanStep e c).2.forcedConnCloses + chanTotalForcedCloses (chanStep e c).1 es

/-- Ordered actions performed by `channelCallback` (the completion handler
bound to `con.createChannel` / `con.createConfirmChannel`). -/
inductive ChanCbAction where
  | setLastError (err : Err)
  | reportError (msg : String)
  | channelCb (err : Option Err)
  | forceCloseConnection
deriving DecidableEq, Repr

/-- The source's `channelCallback = (cb, err, ch) => {...}`, as the ordered
list of actions it performs.  On `err`: `lastError = err; onError(new
Error('Failed to create a channel (...)')); cb(err); closeConnection();`.
On success: handlers are installed on the channel (modelled by `chanStep`
from `initialChanState`) and `cb(null, proxy)` is invoked. -/
def channelCallback (result : Option Err) : List ChanCbAction :=
  match result with
  | some err =>
    [ChanCbAction.setLastError err,
     ChanCbAction.reportError ("Failed to create a channel (" ++ err.message ++ ")"),
     ChanCbAction.channelCb (some err),
     ChanCbAction.forceCloseConnection]
  | none => [ChanCbAction.channelCb none]

/-- One invocation of the caller's `connectCallback`: on a failed attempt
`connectCallback(err)` (i.e. `(error, null)`), on a successful attempt
`connectCallback(null, wrapper)`. -/
inductive ConnCbCall where
  | failure (err : Err)
  | success
deriving DecidableEq, Repr

/-- One connect attempt, from the function passed to `backoff.call`: the
environment's outcome of `amqp.connect(url, ...)` is `some err` (failure) or
`none` (a raw connection was produced).  Returns the `connectCallback`
invocation made by the attempt together with the argument passed to the
backoff completion callback `cb`: on failure
`cb(!isErrorUnrecoverable(err) ? err : null)`, on success (after installing
listeners and delivering the wrapper) `cb()`. -/
def attempt (isErrorUnrecoverable : Classifier) (outcome : Option Err) :
    ConnCbCall × Option Err :=
  match outcome with
  | some err =>
    (ConnCbCall.failure err,
     if !isErrorUnrecoverable err then some err else none)
  | none => (ConnCbCall.success, none)

/-- Modelled from the spec: the Backoff Scheduler's attempt loop (section
4.1), the contract of the external `backoff` library's `backoff.call` which
is not part of this repository.  Driven by a script of per-attempt
environment outcomes, it repeatedly invokes `attempt`; a `done` argument of
`some err` schedules another attempt after a delay, `none` stops the loop and
invokes the completion callback (`onGiveUp` / the `() => {}` passed to
`backoff.call`).  Returns the accumulated `connectCallback` invocations and
whether the loop stopped within the script. -/
def backoffRun (isErrorUnrecoverable : Classifier) :
    List (Option Err) → List ConnCbCall × Bool
  | [] => ([], false)
  | outcome :: rest =>
    match attempt isErrorUnrecoverable outcome with
    | (call, none) => ([call], true)
    | (call, some _) =>
      let tail := backoffRun isErrorUnrecoverable rest
      (call :: tail.1, tail.2)

/-- Number of raw channel `close` events in a list of channel-level
occurrences. -/
def countCloseEvents : List ChanEvent → Nat
  | [] => 0
  | ChanEvent.closeEvent :: es => countCloseEvents es + 1
  | _ :: es => countCloseEvents es

/-- Sample error: a refused connection. -/
def econnRefused : Err :=
  { name := "Error", message := "ECONNREFUSED" }

/-- Sample error treated as unrecoverable by `fatalByName`. -/
def fatalErr : Err :=
  { name := "Fatal", message := "ACCESS_REFUSED" }

/-- The default classifier from the source: `() => false`. -/
def alwaysRecoverable : Classifier := fun _ => false

/-- Sample classifier marking errors named `Fatal` unrecoverable. -/
def fatalByName : Classifier := fun e => e.name == "Fatal"

/-! ## Helper lemmas -/

/-- Once `activeConnection` is `null`, no connection-level occurrence sets it
again within the same `connect` invocation (the attempt loop has already
stopped), so it stays `null`. -/
theorem connRun_inactive (isUn : Classifier) :
    ∀ (evs : List ConnEvent) (s : ConnState), s.activeConnection = false →
      (connRun isUn s evs).activeConnection = false
  | [], _, h => h
  | e :: es, s, h => by
    have h1 : (connStep isUn e s).1.activeConnection = false := by
      cases e <;> simp [connStep, conErrorHandler, conCloseHandler,
        wrapperClose, wrapperCloseAndReconnect, h]
    simpa [connRun] using connRun_inactive isUn es _ h1

/-- With `activeConnection` cleared, no sequence of connection-level
occurrences ever schedules a reconnect. -/
theorem totalReconnects_inactive (isUn : Classifier) :
    ∀ (evs : List ConnEvent) (s : ConnState), s.activeConnection = false →
      totalReconnects isUn s evs = 0
  | [], _, _ => rfl
  | e :: es, s, h => by
    have h1 : (connStep isUn e s).1.activeConnection = false := by
      cases e <;> simp [connStep, conErrorHandler, conCloseHandler,
        wrapperClose, wrapperCloseAndReconnect, h]
    have h2 : (connStep isUn e s).2.reconnects = 0 := by
      cases e <;> simp [connStep, conErrorHandler, conCloseHandler,
        wrapperClose, wrapperCloseAndReconnect, h]
    simp [totalReconnects, h2, totalReconnects_inactive isUn es _ h1]

/-- The `connectionClosed` flag after a run is the latched disjunction of its
starting value and the presence of a raw `close` event in the run. -/
theorem connRun_closed (isUn : Classifier) :
    ∀ (evs : List ConnEvent) (s : ConnState),
      ((connRun isUn s evs).connectionClosed = true ↔
        s.connectionClosed = true ∨ ConnEvent.closeEvent ∈ evs)
  | [], s => by simp [connRun]
  | e :: es, s => by
    have ih := connRun_closed isUn es (connStep isUn e s).1
    simp only [connRun] at ih ⊢
    rw [ih]
    cases e <;>
      simp [connStep, conErrorHandler, conCloseHandler, wrapperClose,
        wrapperCloseAndReconnect, List.mem_cons, or_assoc]

/-- Once `channelClosedByClient` is set, no channel-level occurrence clears
it, and the channel close handler never force-closes the connection. -/
theorem chanForced_closedByClient :
    ∀ (evs : List ChanEvent) (c : ChanState), c.channelClosedByClient = true →
      chanTotalForcedCloses c evs = 0
  | [], _, _ => rfl
  | e :: es, c, h => by
    have h1 : (chanStep e c).1.channelClosedByClient = true := by
      cases e <;> simp [chanStep, chErrorHandler, chCloseHandler,
        chanProxyClose, h]
    have h2 : (chanStep e c).2.forcedConnCloses = 0 := by
      cases e <;> simp [chanStep, chErrorHandler, chCloseHandler,
        chanProxyClose, h]
    simp [chanTotalForcedCloses, h2, chanForced_closedByClient es _ h1]

/-- While the client never calls the proxy's `close`, every raw channel
`close` event force-closes the parent connection exactly once. -/
theorem chanForced_unsolicited :
    ∀ (evs : List ChanEvent) (c : ChanState),
      c.channelClosedByClient = false → ChanEvent.clientClose ∉ evs →
      chanTotalForcedCloses c evs = countCloseEvents evs
  | [], _, _, _ => rfl
  | e :: es, c, h, hmem => by
    have hmem' : ChanEvent.clientClose ∉ es := fun hx =>
      hmem (List.mem_cons_of_mem _ hx)
    cases e with
    | errorEvent err =>
      simpa [chanTotalForcedCloses, chanStep, chErrorHandler, countCloseEvents]
        using chanForced_unsolicited es c h hmem'
    | closeEvent =>
      have ih := chanForced_unsolicited es
        (chanStep ChanEvent.closeEvent c).1 (by simp [chanStep, chCloseHandler, h]) hmem'
      simp [chanStep, chCloseHandler, h] at ih
      simp [chanTotalForcedCloses, chanStep, chCloseHandler, countCloseEvents,
        h, ih, Nat.add_comm]
    | clientClose =>
      exact absurd (List.mem_cons_self _ _) hmem

/-! ## Claim theorems -/

/-- C1: after a connected raw connection emits its close event, a new connect
attempt is scheduled if and only if (a) `activeConnection` was still set when
the close event fired, and (b) the last recorded error, if any, was not
classified unrecoverable by `isErrorUnrecoverable`. -/
theorem close_schedules_reconnect_iff (isUn : Classifier) (s : ConnState) :
    0 < (conCloseHandler isUn s).2.reconnects ↔
      (s.activeConnection = true ∧
        (s.lastError = none ∨ ∃ e, s.lastError = some e ∧ isUn e = false)) := by
  cases hA : s.activeConnection with
  | false => simp [conCloseHandler, hA]
  | true =>
    cases hL : s.lastError with
    | none => simp [conCloseHandler, hA, hL]
    | some e =>
      by_cases hU : isUn e = true
      · simp [conCloseHandler, hA, hL, hU]
      · simp [conCloseHandler, hA, hL, hU]

/-- C2: for every sequence of `n ≥ 1` connect-attempt failures whose errors
the classifier calls recoverable, followed by one successful attempt,
`connectCallback` is invoked exactly `n` times with `(error, null)` — once
per failed attempt, with that attempt's error, in order — and then exactly
once with `(null, wrapper)`; the loop then stops. -/
theorem failures_then_success_callback_trace (isUn : Classifier)
    (errs : List Err) (h : ∀ e ∈ errs, isUn e = false) :
    backoffRun isUn (errs.map some ++ [none]) =
      (errs.map ConnCbCall.failure ++ [ConnCbCall.success], true) := by
  induction errs with
  | nil => simp [backoffRun, attempt]
  | cons e es ih =>
    have he : isUn e = false := h e (List.mem_cons_self _ _)
    have ih' := ih (fun x hx => h x (List.mem_cons_of_mem _ hx))
    simp [backoffRun, attempt, he, ih']

/-- Witness for C2: two refused connections, then success, under the default
classifier. -/
theorem failures_then_success_callback_trace_witness :
    backoffRun alwaysRecoverable
        ([econnRefused, econnRefused].map some ++ [none]) =
      ([econnRefused, econnRefused].map ConnCbCall.failure ++
        [ConnCbCall.success], true) :=
  failures_then_success_callback_trace alwaysRecoverable
    [econnRefused, econnRefused] (by decide)

/-- C3: if the classifier returns true for the error of attempt `k` (here
`k = errs.length + 1`), the loop stops with the completion callback invoked,
no further attempt is consumed from the environment script whatever it holds,
and `connectCallback` has been invoked exactly `k` times in total. -/
theorem unrecoverable_stops_loop (isUn : Classifier) (errs : List Err)
    (ek : Err) (rest : List (Option Err))
    (h : ∀ e ∈ errs, isUn e = false) (hk : isUn ek = true) :
    backoffRun isUn (errs.map some ++ some ek :: rest) =
      (errs.map ConnCbCall.failure ++ [ConnCbCall.failure ek], true) := by
  induction errs with
  | nil => simp [backoffRun, attempt, hk]
  | cons e es ih =>
    have he : isUn e = false := h e (List.mem_cons_self _ _)
    have ih' := ih (fun x hx => h x (List.mem_cons_of_mem _ hx))
    simp [backoffRun, attempt, he, ih']

/-- Witness for C3: one recoverable failure, then a fatal error, with a
further scripted outcome that is never consumed. -/
theorem unrecoverable_stops_loop_witness :
    backoffRun fatalByName ([econnRefused].map some ++ some fatalErr :: [none]) =
      ([econnRefused].map ConnCbCall.failure ++ [ConnCbCall.failure fatalErr],
        true) :=
  unrecoverable_stops_loop fatalByName [econnRefused] fatalErr [none]
    (by decide) (by decide)

/-- C4: the wrapper's `close(cb)` clears the active marker strictly before
delegating to the raw close, and from then on no sequence of
connection-level occurrences — in particular the ensuing raw close event —
ever schedules a new connect attempt. -/
theorem client_close_never_reconnects (isUn : Classifier) (s : ConnState)
    (evs : List ConnEvent) :
    (wrapperClose s).1.activeConnection = false ∧
      totalReconnects isUn (wrapperClose s).1 evs = 0 :=
  ⟨rfl, totalReconnects_inactive isUn evs _ rfl⟩

/-- C5: `closeAndReconnect(cb)` delegates to the raw close without touching
the state — in particular the active marker stays set — so, provided the
marker is set and the last recorded error (if any) is classified
recoverable, the ensuing raw close event schedules exactly one new connect
attempt. -/
theorem closeAndReconnect_reconnects_once (isUn : Classifier) (s : ConnState)
    (hact : s.activeConnection = true)
    (herr : s.lastError = none ∨ ∃ e, s.lastError = some e ∧ isUn e = false) :
    (wrapperCloseAndReconnect s).1 = s ∧
      (wrapperCloseAndReconnect s).2.rawCloses = 1 ∧
      (connStep isUn ConnEvent.closeEvent
        (wrapperCloseAndReconnect s).1).2.reconnects = 1 := by
  refine ⟨rfl, rfl, ?_⟩
  rcases herr with hnone | ⟨e, he, hu⟩
  · simp [connStep, conCloseHandler, wrapperCloseAndReconnect, hact, hnone]
  · simp [connStep, conCloseHandler, wrapperCloseAndReconnect, hact, he, hu]

/-- Witness for C5: the state right after a successful connect. -/
theorem closeAndReconnect_reconnects_once_witness :
    (wrapperCloseAndReconnect initialConnState).1 = initialConnState ∧
      (wrapperCloseAndReconnect initialConnState).2.rawCloses = 1 ∧
      (connStep alwaysRecoverable ConnEvent.closeEvent
        (wrapperCloseAndReconnect initialConnState).1).2.reconnects = 1 :=
  closeAndReconnect_reconnects_once alwaysRecoverable initialConnState rfl
    (Or.inl rfl)

/-- C6: the wrapper's `closed` reads false when the wrapper is delivered, and
after any run of connection-level occurrences it reads true exactly when a
raw close event has occurred (or it was already true): it becomes true at
the first close event and never reverts. -/
theorem closed_latches (isUn : Classifier) :
    closedGetter initialConnState = false ∧
      ∀ (s : ConnState) (evs : List ConnEvent),
        (closedGetter (connRun isUn s evs) = true ↔
          s.connectionClosed = true ∨ ConnEvent.closeEvent ∈ evs) :=
  ⟨rfl, fun s evs => connRun_closed isUn evs s⟩

/-- C7: the channel proxy's `close()` sets `channelClosedByClient` before
delegating, so no later channel-level occurrence force-closes the parent
connection; conversely, while the client never calls the proxy's `close`,
each unsolicited channel close event force-closes the parent connection
exactly once. -/
theorem channel_close_suppression (c : ChanState) (evs : List ChanEvent) :
    chanTotalForcedCloses (chanProxyClose c).1 evs = 0 ∧
      (ChanEvent.clientClose ∉ evs →
        chanTotalForcedCloses initialChanState evs = countCloseEvents evs) :=
  ⟨chanForced_closedByClient evs _ rfl,
   fun hmem => chanForced_unsolicited evs initialChanState rfl hmem⟩

/-- Witness for C7: a single unsolicited close event forces exactly one
connection close, and none after a client-initiated proxy close. -/
theorem channel_close_suppression_witness :
    chanTotalForcedCloses (chanProxyClose initialChanState).1
        [ChanEvent.closeEvent] = 0 ∧
      chanTotalForcedCloses initialChanState [ChanEvent.closeEvent] = 1 := by
  refine ⟨(channel_close_suppression initialChanState [ChanEvent.closeEvent]).1, ?_⟩
  have h := (channel_close_suppression initialChanState
    [ChanEvent.closeEvent]).2 (by decide)
  simpa [countCloseEvents] using h

/-- C8: an error `e` thrown by the raw close inside `closeConnection`
escapes if and only if its name is not `IllegalOperationError`, and is
swallowed if and only if its name is `IllegalOperationError`. -/
theorem closeConnection_swallow_iff (e : Err) :
    (closeConnection (some e) = some e ↔ e.name ≠ "IllegalOperationError") ∧
      (closeConnection (some e) = none ↔ e.name = "IllegalOperationError") := by
  by_cases h : e.name = "IllegalOperationError"
  · simp [closeConnection, h]
  · simp [closeConnection, h, bne_iff_ne]

/-- C9: the connection-level error handler records the error as `lastError`
and reports it through `onError` with a connection-level message; it leaves
`activeConnection` and `connectionClosed` untouched, schedules no reconnect
and issues no raw close. -/
theorem connection_error_observe_only (s : ConnState) (err : Err) :
    (conErrorHandler s err).1.lastError = some err ∧
      (conErrorHandler s err).1.activeConnection = s.activeConnection ∧
      (conErrorHandler s err).1.connectionClosed = s.connectionClosed ∧
      (conErrorHandler s err).2.reconnects = 0 ∧
      (conErrorHandler s err).2.rawCloses = 0 ∧
      (conErrorHandler s err).2.errorMsgs =
        ["Connection failed (" ++ err.message ++ ")"] :=
  ⟨rfl, rfl, rfl, rfl, rfl, rfl⟩

/-- C10: on a failed channel creation, `channelCallback` records the error
as `lastError`, reports it once via `onError`, invokes the caller's channel
callback exactly once with the error and no channel, and only then
force-closes the connection; whether the ensuing close event reconnects is
decided by classifying this very error. -/
theorem channel_creation_failure_path (isUn : Classifier) (err : Err) :
    channelCallback (some err) =
      [ChanCbAction.setLastError err,
       ChanCbAction.reportError
         ("Failed to create a channel (" ++ err.message ++ ")"),
       ChanCbAction.channelCb (some err),
       ChanCbAction.forceCloseConnection] ∧
      (connStep isUn ConnEvent.closeEvent
        { activeConnection := true, lastError := some err,
          connectionClosed := false }).2.reconnects =
        (if isUn err then 0 else 1) :=
  ⟨rfl, rfl⟩

end AmqplibAutoRecovery
